import Mathlib

/-!
# Verification of the timeline scroll-coordination engine

A shallow embedding of `src/useTimelineScroll.ts` (the `useTimelineScroll`
hook).  Pixel offsets and dates are modelled as integers (dates as
calendar-day numbers, so `differenceInCalendarDays a b = a - b`); the
mutable refs of the hook become fields of an explicit `ScrollTracking`
state; every host-callback invocation (`onScrollLeft`, `onReachStart`,
`onReachEnd`, `onStopScrollingLeft`) becomes an element of an emission
trace; the two deferred executions (the 150 ms stop-debounce timer and the
animation-frame guard clear) become explicit steps
(`debounceTimerFires`, `animationFrameFires`) that can be interleaved with
ordinary event steps.  The opaque React event payload is reduced to the
one bit the code distinguishes: native versus synthesized
(`createSyntheticScrollEvent`); the `scroller` argument carried by
`onScrollLeft` is dropped from emissions since it is the one chart
scroller throughout.
-/

namespace Timeline

-- ============================================================================
-- Constants (from the source)
-- ============================================================================

def TWELVE_MONTHS_IN_DAYS : Int := 360

def RIGHT_EDGE_THRESHOLD_PX : Int := 480

def SCROLL_STOP_DEBOUNCE_MS : Int := 150

/-- `twelveMonthsPx = TWELVE_MONTHS_IN_DAYS * pxPerDay` (derived value in the hook). -/
def twelveMonthsPx (pxPerDay : Int) : Int := TWELVE_MONTHS_IN_DAYS * pxPerDay

-- ============================================================================
-- Types
-- ============================================================================

/-- The event payload forwarded to host callbacks: a native DOM scroll event
or the synthesized payload built by `createSyntheticScrollEvent`. -/
inductive Ev where
  | native
  | synthetic
deriving DecidableEq, Repr

/-- One host-callback invocation.  `scrollingLeft` carries the numeric
arguments of `onScrollLeft` plus the payload tag. -/
inductive Emit where
  | scrollingLeft (currentScrollLeft prevScrollLeft scrollDelta : Int) (ev : Ev)
  | reachStart
  | reachEnd
  | stopScrollingLeft
deriving DecidableEq, Repr

/-- Erase the event-payload tag of an emission (claims compare call
sequences "modulo the event payload"). -/
def Emit.eraseEv : Emit → Emit
  | .scrollingLeft c p d _ => .scrollingLeft c p d .native
  | e => e

/-- Emissions belonging to the left-scroll machinery (everything except
`reachEnd`). -/
def Emit.isLeftNotification : Emit → Bool
  | .scrollingLeft _ _ _ _ => true
  | .reachStart => true
  | .stopScrollingLeft => true
  | .reachEnd => false

/-- The chart scroller DOM element: total scrollable width, visible width,
and current horizontal offset. -/
structure Scroller where
  scrollWidth : Int
  clientWidth : Int
  scrollLeft : Int
deriving DecidableEq, Repr

def Scroller.maxScroll (sc : Scroller) : Int := sc.scrollWidth - sc.clientWidth

/-- Assignment to a DOM element's `scrollLeft`: the browser clamps the
written value into `[0, scrollWidth - clientWidth]` (modelled DOM
semantics; the engine itself performs no clamping). -/
def Scroller.writeScrollLeft (sc : Scroller) (v : Int) : Scroller :=
  { sc with scrollLeft := max 0 (min v sc.maxScroll) }

/-- The mutable refs of the hook that drive horizontal tracking, plus the
published `scrollLeft` React state.
  * `prevScrollLeft`   — `prevScrollLeftRef`
  * `hasReachedEnd`    — `hasReachedEndRef`
  * `scrollingLeft`    — `scrollingLeftRef` (gates `onReachStart`)
  * `wasScrollingLeft` — `wasScrollingLeftRef` (gates the stop pair)
  * `timerPending`     — whether a live (scheduled, unfired, uncleared)
                         stop-debounce timer exists (`scrollLeftTimeoutRef`)
  * `lastScrollState`  — `lastScrollStateRef` as `(currentScrollLeft, prevScrollLeft)`
  * `scrollLeftPub`    — the `scrollLeft` value published via `setScrollLeft` -/
structure ScrollTracking where
  prevScrollLeft : Int
  hasReachedEnd : Bool
  scrollingLeft : Bool
  wasScrollingLeft : Bool
  timerPending : Bool
  lastScrollState : Option (Int × Int)
  scrollLeftPub : Int
deriving DecidableEq, Repr

/-- Ref/state values at mount (`useRef(0)`, `useRef(false)`, `useRef(null)`,
`useState(0)`). -/
def initialTracking : ScrollTracking :=
  { prevScrollLeft := 0
    hasReachedEnd := false
    scrollingLeft := false
    wasScrollingLeft := false
    timerPending := false
    lastScrollState := none
    scrollLeftPub := 0 }

-- ============================================================================
-- Left-scroll detection (`checkAndHandleLeftScroll`)
-- ============================================================================

/-- `checkAndHandleLeftScroll(currentScrollLeft, prevScrollLeft, scroller, event)`.
If not moving left: reset both flags and clear/null the timeout, emitting
nothing.  If moving left: emit `onScrollLeft` with the delta, record the
last scroll state, set `wasScrollingLeft`, fire `onReachStart` once when
the `scrollingLeft` gate is down and `currentScrollLeft < twelveMonthsPx`,
and (re)arm the stop-debounce timer. -/
def checkAndHandleLeftScroll (tw cur prev : Int) (ev : Ev) (s : ScrollTracking) :
    ScrollTracking × List Emit :=
  if prev ≤ cur then
    ({ s with scrollingLeft := false, wasScrollingLeft := false, timerPending := false }, [])
  else
    let scrollDelta := prev - cur
    let s1 := { s with lastScrollState := some (cur, prev), wasScrollingLeft := true }
    if s1.scrollingLeft = false ∧ cur < tw then
      ({ s1 with scrollingLeft := true, timerPending := true },
        [Emit.scrollingLeft cur prev scrollDelta ev, Emit.reachStart])
    else
      ({ s1 with timerPending := true },
        [Emit.scrollingLeft cur prev scrollDelta ev])

/-- The body of the `setTimeout` callback armed by `checkAndHandleLeftScroll`,
run when the 150 ms debounce elapses without being cleared.  A fired timer
is spent, so `timerPending` drops; the callback emits the stop pair only if
`wasScrollingLeft` is still set and a last scroll state exists.  `ev` is
the event captured by the scheduling call's closure.  Note the source
clears `wasScrollingLeftRef` here but never `scrollingLeftRef`. -/
def debounceTimerFires (ev : Ev) (s : ScrollTracking) : ScrollTracking × List Emit :=
  let s0 := { s with timerPending := false }
  if s0.wasScrollingLeft then
    match s0.lastScrollState with
    | some (c, p) =>
        ({ s0 with wasScrollingLeft := false },
          [Emit.scrollingLeft c p 0 ev, Emit.stopScrollingLeft])
    | none => (s0, [])
  else (s0, [])

-- ============================================================================
-- Right-edge detection (`checkAndHandleRightEdge`)
-- ============================================================================

/-- `checkAndHandleRightEdge(currentScrollLeft, prevScrollLeft, scroller)`:
fire `onReachEnd` on the false→true transition of
`currentScrollLeft >= maxScroll - RIGHT_EDGE_THRESHOLD_PX`, latched by
`hasReachedEnd`; the latch clears whenever the position is back outside
the threshold band. -/
def checkAndHandleRightEdge (scrollWidth clientWidth cur prev : Int) (s : ScrollTracking) :
    ScrollTracking × List Emit :=
  let maxScroll := scrollWidth - clientWidth
  let isAtEdge := maxScroll - RIGHT_EDGE_THRESHOLD_PX ≤ cur
  let wasNotAtEdge := prev < maxScroll - RIGHT_EDGE_THRESHOLD_PX
  if isAtEdge ∧ wasNotAtEdge then
    if s.hasReachedEnd = false then
      ({ s with hasReachedEnd := true }, [Emit.reachEnd])
    else (s, [])
  else if ¬ isAtEdge then
    ({ s with hasReachedEnd := false }, [])
  else (s, [])

-- ============================================================================
-- Vertical mirroring (`syncVerticalScroll`)
-- ============================================================================

/-- The reentrancy guard plus whether an animation-frame callback that will
clear it is scheduled. -/
structure VSync where
  syncing : Bool
  rafScheduled : Bool
deriving DecidableEq, Repr

/-- `syncVerticalScroll(from, to)`: no-op while the guard is set; otherwise
set the guard, copy `from.scrollTop` onto `to.scrollTop`, and request an
animation frame to clear the guard.  Returns the new guard state, the
target pane's resulting `scrollTop`, and the number of mirrored writes
performed (0 or 1). -/
def syncVerticalScroll (g : VSync) (fromTop toTop : Int) : VSync × Int × Nat :=
  if g.syncing then (g, toTop, 0)
  else ({ syncing := true, rafScheduled := true }, fromTop, 1)

/-- The `requestAnimationFrame` callback scheduled by `syncVerticalScroll`:
clears the guard on the next frame. -/
def animationFrameFires (g : VSync) : VSync :=
  if g.rafScheduled then { syncing := false, rafScheduled := false } else g

/-- One user vertical scroll on pane A in a harness that mirrors in both
directions: pane A's scroll handler mirrors A → B; the write to B raises
B's scroll event within the same synchronous turn (the animation frame has
not yet run), whose handler attempts the reciprocal mirror B → A.
Returns the final guard, the resulting tops of A and B, and the total
number of mirrored writes in the turn. -/
def mirroredTurn (g : VSync) (aTop bTop : Int) : VSync × Int × Int × Nat :=
  let r1 := syncVerticalScroll g aTop bTop
  let r2 := syncVerticalScroll r1.1 r1.2.1 aTop
  (r2.1, r2.2.1, r1.2.1, r1.2.2 + r2.2.2)

-- ============================================================================
-- Task navigation (`scrollToTask`)
-- ============================================================================

/-- A task row.  Dates are calendar-day numbers; `start = none` models both
a `null` start and an invalid (`!isValid`) date, the two cases the source
collapses into "no positionable start". -/
structure TimelineTask where
  id : String
  title : String
  start : Option Int
  endDate : Option Int
  baseIndex : Nat
  isSentinel : Bool
deriving DecidableEq, Repr

/-- `clampDate(d, start, end)` via `isBefore` / `isAfter`. -/
def clampDate (d rangeStart rangeEnd : Int) : Int :=
  if d < rangeStart then rangeStart
  else if rangeEnd < d then rangeEnd
  else d

/-- `differenceInCalendarDays(a, b)` on day-number dates. -/
def differenceInCalendarDays (a b : Int) : Int := a - b

/-- `scrollToTask(taskId)`: find the task; silently return when absent,
when no scroller is mounted, or when the start date is not positionable;
otherwise request a smooth scroll to
`max(0, differenceInCalendarDays(clampedStart, viewport.start)) * pxPerDay - clientWidth / 2`.
The result is the requested target scroll-left (`none` = no request was
made); the engine does not clamp it. -/
def scrollToTask (tasks : List TimelineTask) (vstart vend pxPerDay : Int)
    (scroller : Option Scroller) (taskId : String) : Option Int :=
  match tasks.find? (fun t => t.id == taskId) with
  | none => none
  | some task =>
    match scroller with
    | none => none
    | some sc =>
      match task.start with
      | none => none
      | some d =>
        let start := clampDate d vstart vend
        let startOffset := max 0 (differenceInCalendarDays start vstart) * pxPerDay
        some (startOffset - sc.clientWidth / 2)

-- ============================================================================
-- Native scroll path (`handleRightScroll`)
-- ============================================================================

/-- `handleRightScroll(e)`: read `scrollLeft` off the event's target (a DOM
reading, hence already clamped by the browser), publish it via
`setScrollLeft`, run left-scroll detection then right-edge detection, and
update `prevScrollLeftRef`.  (The trailing vertical sync to the left pane
touches no horizontal state and no claim, and is modelled separately by
`syncVerticalScroll`.) -/
def handleRightScroll (tw : Int) (sc : Scroller) (s : ScrollTracking) :
    ScrollTracking × List Emit :=
  let cur := sc.scrollLeft
  let prev := s.prevScrollLeft
  let s1 := { s with scrollLeftPub := cur }
  let r1 := checkAndHandleLeftScroll tw cur prev Ev.native s1
  let r2 := checkAndHandleRightEdge sc.scrollWidth sc.clientWidth cur prev r1.1
  ({ r2.1 with prevScrollLeft := cur }, r1.2 ++ r2.2)

/-- Feed one absolute scroll-left value through the native path: the chart
scroller reports `v` as its `scrollLeft`. -/
def nativeStepV (tw sw cw : Int) (v : Int) (s : ScrollTracking) :
    ScrollTracking × List Emit :=
  handleRightScroll tw { scrollWidth := sw, clientWidth := cw, scrollLeft := v } s

-- ============================================================================
-- Pointer-drag path (`handlePointerDown`: `handleMove` / `handleEnd`)
-- ============================================================================

/-- The per-drag closure state set up by `handlePointerDown`: the `panning`
flag, the cursor, the saved previous cursor, and the three global
listeners registered on `window`. -/
structure DragSession where
  panning : Bool
  cursor : String
  prevCursor : String
  moveListener : Bool
  upListener : Bool
  cancelListener : Bool
deriving DecidableEq, Repr

/-- The `handleMove` pointer-move listener with captured `startX` and
`startScrollLeft`: compute `newScrollLeft = startScrollLeft - (clientX - startX)`,
write it to the scroller (browser-clamped), publish the raw value via
`setScrollLeft`, run the same left-scroll and right-edge detection as the
native path on the raw value with a synthesized event, and update
`prevScrollLeftRef` to the raw value. -/
def handleMove (tw startX startScrollLeft : Int) (panning : Bool) (clientX : Int)
    (sc : Scroller) (s : ScrollTracking) : (Scroller × ScrollTracking) × List Emit :=
  if panning = false then ((sc, s), [])
  else
    let dx := clientX - startX
    let newScrollLeft := startScrollLeft - dx
    let prev := s.prevScrollLeft
    let sc1 := sc.writeScrollLeft newScrollLeft
    let s1 := { s with scrollLeftPub := newScrollLeft }
    let r1 := checkAndHandleLeftScroll tw newScrollLeft prev Ev.synthetic s1
    let r2 := checkAndHandleRightEdge sc1.scrollWidth sc1.clientWidth newScrollLeft prev r1.1
    ((sc1, { r2.1 with prevScrollLeft := newScrollLeft }), r1.2 ++ r2.2)

/-- The `handleEnd` listener: stop panning, restore the prior cursor, emit
the stop pair immediately if a leftward episode was mid-flight (clearing
`wasScrollingLeftRef`; the pending debounce timer is not touched), and
remove all three global listeners unconditionally. -/
def handleEnd (sess : DragSession) (s : ScrollTracking) :
    (DragSession × ScrollTracking) × List Emit :=
  let sess1 := { sess with
    panning := false
    cursor := sess.prevCursor
    moveListener := false
    upListener := false
    cancelListener := false }
  if s.wasScrollingLeft then
    match s.lastScrollState with
    | some (c, p) =>
        ((sess1, { s with wasScrollingLeft := false }),
          [Emit.scrollingLeft c p 0 Ev.synthetic, Emit.stopScrollingLeft])
    | none => ((sess1, s), [])
  else ((sess1, s), [])

/-- How a drag terminates: the `pointerup` or the `pointercancel` event. -/
inductive TerminationKind where
  | up
  | cancel
deriving DecidableEq, Repr

/-- `handlePointerDown` registers the same `handleEnd` closure for both
`pointerup` and `pointercancel`, so either termination runs it. -/
def pointerTerminate (_k : TerminationKind) (sess : DragSession) (s : ScrollTracking) :
    (DragSession × ScrollTracking) × List Emit :=
  handleEnd sess s

/-- Feed one absolute scroll-left value `v` through the pointer path while
panning: the pointer-move whose `clientX` makes
`startScrollLeft - (clientX - startX)` equal `v`. -/
def pointerStepV (tw startX startScrollLeft : Int) (v : Int)
    (st : Scroller × ScrollTracking) : (Scroller × ScrollTracking) × List Emit :=
  handleMove tw startX startScrollLeft true (startX + startScrollLeft - v) st.1 st.2

-- ============================================================================
-- Running event sequences
-- ============================================================================

/-- Fold a step function over a list of inputs, concatenating the emission
traces (the engine's ordering contract: calls are processed strictly in
input order). -/
def runSteps {σ ι : Type} (step : ι → σ → σ × List Emit) : List ι → σ → σ × List Emit
  | [], s => (s, [])
  | v :: vs, s =>
    let r1 := step v s
    let r2 := runSteps step vs r1.1
    (r2.1, r1.2 ++ r2.2)

-- ============================================================================
-- Case lemmas for the detection functions
-- ============================================================================

theorem checkAndHandleLeftScroll_not_left (tw cur prev : Int) (ev : Ev) (s : ScrollTracking)
    (h : prev ≤ cur) :
    checkAndHandleLeftScroll tw cur prev ev s
      = ({ s with scrollingLeft := false, wasScrollingLeft := false, timerPending := false }, []) := by
  unfold checkAndHandleLeftScroll
  rw [if_pos h]

theorem checkAndHandleLeftScroll_left_fire (tw cur prev : Int) (ev : Ev) (s : ScrollTracking)
    (h : cur < prev) (hgate : s.scrollingLeft = false) (hth : cur < tw) :
    checkAndHandleLeftScroll tw cur prev ev s
      = ({ s with
            lastScrollState := some (cur, prev)
            wasScrollingLeft := true
            scrollingLeft := true
            timerPending := true },
         [Emit.scrollingLeft cur prev (prev - cur) ev, Emit.reachStart]) := by
  unfold checkAndHandleLeftScroll
  rw [if_neg (by omega), if_pos ⟨hgate, hth⟩]

theorem checkAndHandleLeftScroll_left_nofire (tw cur prev : Int) (ev : Ev) (s : ScrollTracking)
    (h : cur < prev) (hgate : ¬ (s.scrollingLeft = false ∧ cur < tw)) :
    checkAndHandleLeftScroll tw cur prev ev s
      = ({ s with
            lastScrollState := some (cur, prev)
            wasScrollingLeft := true
            timerPending := true },
         [Emit.scrollingLeft cur prev (prev - cur) ev]) := by
  unfold checkAndHandleLeftScroll
  rw [if_neg (by omega), if_neg hgate]

theorem checkAndHandleRightEdge_cases (sw cw cur prev : Int) (s : ScrollTracking) :
    checkAndHandleRightEdge sw cw cur prev s
      = if sw - cw - RIGHT_EDGE_THRESHOLD_PX ≤ cur ∧ prev < sw - cw - RIGHT_EDGE_THRESHOLD_PX then
          (if s.hasReachedEnd = false then ({ s with hasReachedEnd := true }, [Emit.reachEnd])
           else (s, []))
        else if ¬ (sw - cw - RIGHT_EDGE_THRESHOLD_PX ≤ cur) then
          ({ s with hasReachedEnd := false }, [])
        else (s, []) := by
  unfold checkAndHandleRightEdge
  rfl

theorem checkAndHandleRightEdge_count_reachStart (sw cw cur prev : Int) (s : ScrollTracking) :
    (checkAndHandleRightEdge sw cw cur prev s).2.count Emit.reachStart = 0 := by
  rw [checkAndHandleRightEdge_cases]
  split_ifs <;> rfl

theorem checkAndHandleRightEdge_filter_left (sw cw cur prev : Int) (s : ScrollTracking) :
    (checkAndHandleRightEdge sw cw cur prev s).2.filter Emit.isLeftNotification = [] := by
  rw [checkAndHandleRightEdge_cases]
  split_ifs <;> rfl

theorem checkAndHandleRightEdge_map_eraseEv (sw cw cur prev : Int) (s : ScrollTracking) :
    (checkAndHandleRightEdge sw cw cur prev s).2.map Emit.eraseEv
      = (checkAndHandleRightEdge sw cw cur prev s).2 := by
  rw [checkAndHandleRightEdge_cases]
  split_ifs <;> rfl

theorem checkAndHandleRightEdge_fst_scrollingLeft (sw cw cur prev : Int) (s : ScrollTracking) :
    (checkAndHandleRightEdge sw cw cur prev s).1.scrollingLeft = s.scrollingLeft := by
  rw [checkAndHandleRightEdge_cases]; split_ifs <;> rfl

theorem checkAndHandleRightEdge_fst_wasScrollingLeft (sw cw cur prev : Int) (s : ScrollTracking) :
    (checkAndHandleRightEdge sw cw cur prev s).1.wasScrollingLeft = s.wasScrollingLeft := by
  rw [checkAndHandleRightEdge_cases]; split_ifs <;> rfl

theorem checkAndHandleRightEdge_fst_timerPending (sw cw cur prev : Int) (s : ScrollTracking) :
    (checkAndHandleRightEdge sw cw cur prev s).1.timerPending = s.timerPending := by
  rw [checkAndHandleRightEdge_cases]; split_ifs <;> rfl

theorem checkAndHandleRightEdge_fst_lastScrollState (sw cw cur prev : Int) (s : ScrollTracking) :
    (checkAndHandleRightEdge sw cw cur prev s).1.lastScrollState = s.lastScrollState := by
  rw [checkAndHandleRightEdge_cases]; split_ifs <;> rfl

theorem checkAndHandleRightEdge_fst_scrollLeftPub (sw cw cur prev : Int) (s : ScrollTracking) :
    (checkAndHandleRightEdge sw cw cur prev s).1.scrollLeftPub = s.scrollLeftPub := by
  rw [checkAndHandleRightEdge_cases]; split_ifs <;> rfl

-- ============================================================================
-- Wrapper-level lemmas for leftward native steps
-- ============================================================================

theorem nativeStepV_left_fire (tw sw cw v : Int) (s : ScrollTracking)
    (h : v < s.prevScrollLeft) (hgate : s.scrollingLeft = false) (hth : v < tw) :
    (nativeStepV tw sw cw v s).1.scrollingLeft = true
    ∧ (nativeStepV tw sw cw v s).1.prevScrollLeft = v
    ∧ (nativeStepV tw sw cw v s).2.count Emit.reachStart = 1 := by
  simp only [nativeStepV, handleRightScroll]
  rw [checkAndHandleLeftScroll_left_fire tw v s.prevScrollLeft Ev.native
      { s with scrollLeftPub := v } h hgate hth]
  refine ⟨?_, ?_, ?_⟩
  · rw [checkAndHandleRightEdge_fst_scrollingLeft]
  · trivial
  · rw [List.count_append, checkAndHandleRightEdge_count_reachStart]
    rfl

theorem nativeStepV_left_nofire (tw sw cw v : Int) (s : ScrollTracking)
    (h : v < s.prevScrollLeft) (hgate : s.scrollingLeft = true) :
    (nativeStepV tw sw cw v s).1.scrollingLeft = true
    ∧ (nativeStepV tw sw cw v s).1.prevScrollLeft = v
    ∧ (nativeStepV tw sw cw v s).2.count Emit.reachStart = 0 := by
  simp only [nativeStepV, handleRightScroll]
  rw [checkAndHandleLeftScroll_left_nofire tw v s.prevScrollLeft Ev.native
      { s with scrollLeftPub := v } h (by simp [hgate])]
  refine ⟨?_, ?_, ?_⟩
  · rw [checkAndHandleRightEdge_fst_scrollingLeft]
    exact hgate
  · trivial
  · rw [List.count_append, checkAndHandleRightEdge_count_reachStart]
    rfl

theorem runSteps_nofire (tw sw cw : Int) (vs : List Int) :
    ∀ s : ScrollTracking, s.scrollingLeft = true →
      List.Chain (fun a b => b < a) s.prevScrollLeft vs →
      (runSteps (nativeStepV tw sw cw) vs s).2.count Emit.reachStart = 0 := by
  induction vs with
  | nil => intro s _ _; rfl
  | cons v vs ih =>
    intro s hs hchain
    rw [List.chain_cons] at hchain
    obtain ⟨hlt, hchain⟩ := hchain
    have hstep := nativeStepV_left_nofire tw sw cw v s hlt hs
    simp only [runSteps]
    rw [List.count_append, hstep.2.2, ih _ hstep.1 (by rw [hstep.2.1]; exact hchain)]

/-- C1: starting a scrolling-left episode (the `scrollingLeft` gate is down),
a consecutive run of strictly-leftward position updates all below the left
expansion threshold `360 * pxPerDay` fires `onReachStart` exactly once: on
the first call of the run, and on none of the later calls. -/
theorem reachStart_once_per_episode (pxPerDay sw cw v : Int) (vs : List Int)
    (s : ScrollTracking)
    (hgate : s.scrollingLeft = false)
    (hchain : List.Chain (fun a b => b < a) s.prevScrollLeft (v :: vs))
    (hunder : ∀ x ∈ v :: vs, x < twelveMonthsPx pxPerDay) :
    (nativeStepV (twelveMonthsPx pxPerDay) sw cw v s).2.count Emit.reachStart = 1
    ∧ (runSteps (nativeStepV (twelveMonthsPx pxPerDay) sw cw) vs
        (nativeStepV (twelveMonthsPx pxPerDay) sw cw v s).1).2.count Emit.reachStart = 0
    ∧ (runSteps (nativeStepV (twelveMonthsPx pxPerDay) sw cw) (v :: vs) s).2.count
        Emit.reachStart = 1 := by
  rw [List.chain_cons] at hchain
  obtain ⟨hlt, hchain⟩ := hchain
  have hstep := nativeStepV_left_fire (twelveMonthsPx pxPerDay) sw cw v s hlt hgate
    (hunder v (by simp))
  have hrest := runSteps_nofire (twelveMonthsPx pxPerDay) sw cw vs _ hstep.1
    (by rw [hstep.2.1]; exact hchain)
  refine ⟨hstep.2.2, hrest, ?_⟩
  simp only [runSteps]
  rw [List.count_append, hstep.2.2, hrest]

/-- The tracking state fed to the C1 witness: a neutral state whose last
recorded position is `1100`. -/
def episodeStart : ScrollTracking :=
  { prevScrollLeft := 1100
    hasReachedEnd := false
    scrollingLeft := false
    wasScrollingLeft := false
    timerPending := false
    lastScrollState := none
    scrollLeftPub := 0 }

/-- Witness for C1 at the spec's concrete inputs: values `[1000, 900, 800, 700]`
with `pxPerDay = 16` (threshold `5760 > 1000`), previous position `1100`. -/
theorem reachStart_once_per_episode_witness :
    (nativeStepV (twelveMonthsPx 16) 20000 1000 1000 episodeStart).2.count Emit.reachStart = 1
    ∧ (runSteps (nativeStepV (twelveMonthsPx 16) 20000 1000) [900, 800, 700]
        (nativeStepV (twelveMonthsPx 16) 20000 1000 1000 episodeStart).1).2.count
        Emit.reachStart = 0
    ∧ (runSteps (nativeStepV (twelveMonthsPx 16) 20000 1000) [1000, 900, 800, 700]
        episodeStart).2.count Emit.reachStart = 1 :=
  reachStart_once_per_episode 16 20000 1000 1000 [900, 800, 700] episodeStart rfl
    (by norm_num [List.chain_cons, episodeStart]) (by decide)

-- ============================================================================
-- C2: pointer/native equivalence
-- ============================================================================

theorem checkAndHandleLeftScroll_fst_ev (tw cur prev : Int) (e e' : Ev) (s : ScrollTracking) :
    (checkAndHandleLeftScroll tw cur prev e s).1
      = (checkAndHandleLeftScroll tw cur prev e' s).1 := by
  rcases le_or_lt prev cur with h | h
  · rw [checkAndHandleLeftScroll_not_left tw cur prev e s h,
      checkAndHandleLeftScroll_not_left tw cur prev e' s h]
  · by_cases hg : s.scrollingLeft = false ∧ cur < tw
    · rw [checkAndHandleLeftScroll_left_fire tw cur prev e s h hg.1 hg.2,
        checkAndHandleLeftScroll_left_fire tw cur prev e' s h hg.1 hg.2]
    · rw [checkAndHandleLeftScroll_left_nofire tw cur prev e s h hg,
        checkAndHandleLeftScroll_left_nofire tw cur prev e' s h hg]

theorem checkAndHandleLeftScroll_trace_ev (tw cur prev : Int) (e e' : Ev) (s : ScrollTracking) :
    (checkAndHandleLeftScroll tw cur prev e s).2.map Emit.eraseEv
      = (checkAndHandleLeftScroll tw cur prev e' s).2.map Emit.eraseEv := by
  rcases le_or_lt prev cur with h | h
  · rw [checkAndHandleLeftScroll_not_left tw cur prev e s h,
      checkAndHandleLeftScroll_not_left tw cur prev e' s h]
  · by_cases hg : s.scrollingLeft = false ∧ cur < tw
    · rw [checkAndHandleLeftScroll_left_fire tw cur prev e s h hg.1 hg.2,
        checkAndHandleLeftScroll_left_fire tw cur prev e' s h hg.1 hg.2]
      rfl
    · rw [checkAndHandleLeftScroll_left_nofire tw cur prev e s h hg,
        checkAndHandleLeftScroll_left_nofire tw cur prev e' s h hg]
      rfl

theorem writeScrollLeft_scrollWidth (sc : Scroller) (v : Int) :
    (sc.writeScrollLeft v).scrollWidth = sc.scrollWidth := rfl

theorem writeScrollLeft_clientWidth (sc : Scroller) (v : Int) :
    (sc.writeScrollLeft v).clientWidth = sc.clientWidth := rfl

theorem native_pointer_step_eq (tw startX startSL v : Int) (sc : Scroller)
    (s : ScrollTracking) :
    (pointerStepV tw startX startSL v (sc, s)).1.2
      = (nativeStepV tw sc.scrollWidth sc.clientWidth v s).1
    ∧ (pointerStepV tw startX startSL v (sc, s)).2.map Emit.eraseEv
      = (nativeStepV tw sc.scrollWidth sc.clientWidth v s).2.map Emit.eraseEv := by
  have hv : startSL - (startX + startSL - v - startX) = v := by ring
  simp only [pointerStepV, handleMove, nativeStepV, handleRightScroll]
  rw [if_neg (by decide : ¬ ((true : Bool) = false))]
  simp only [hv, writeScrollLeft_scrollWidth, writeScrollLeft_clientWidth, List.map_append]
  constructor
  · rw [checkAndHandleLeftScroll_fst_ev tw v s.prevScrollLeft Ev.synthetic Ev.native]
  · rw [checkAndHandleLeftScroll_fst_ev tw v s.prevScrollLeft Ev.synthetic Ev.native,
      checkAndHandleLeftScroll_trace_ev tw v s.prevScrollLeft Ev.synthetic Ev.native]

/-- C2: feeding an identical sequence of absolute scroll-left values through
the native-scroll handler and through the pointer-drag move handler (the
`clientX` chosen so the raw computed position equals the fed value), from
the same tracking state, yields the same final tracking state and the same
emission sequence up to the event-payload tag (native vs. synthesized):
same `onReachStart` / `onReachEnd` / `onScrollLeft` / `onStopScrollingLeft`
invocations with the same numeric arguments. -/
theorem pointer_native_equivalence (tw startX startSL : Int) (vs : List Int)
    (sc : Scroller) (s : ScrollTracking) :
    (runSteps (pointerStepV tw startX startSL) vs (sc, s)).1.2
      = (runSteps (nativeStepV tw sc.scrollWidth sc.clientWidth) vs s).1
    ∧ (runSteps (pointerStepV tw startX startSL) vs (sc, s)).2.map Emit.eraseEv
      = (runSteps (nativeStepV tw sc.scrollWidth sc.clientWidth) vs s).2.map Emit.eraseEv := by
  induction vs generalizing sc s with
  | nil => exact ⟨rfl, rfl⟩
  | cons v vs ih =>
    obtain ⟨h1, h2⟩ := native_pointer_step_eq tw startX startSL v sc s
    have e1 : (pointerStepV tw startX startSL v (sc, s)).1
        = ((pointerStepV tw startX startSL v (sc, s)).1.1,
           (nativeStepV tw sc.scrollWidth sc.clientWidth v s).1) := by
      rw [← h1]
    have hrec := ih (pointerStepV tw startX startSL v (sc, s)).1.1
      (nativeStepV tw sc.scrollWidth sc.clientWidth v s).1
    rw [show (pointerStepV tw startX startSL v (sc, s)).1.1.scrollWidth = sc.scrollWidth
          from rfl,
        show (pointerStepV tw startX startSL v (sc, s)).1.1.clientWidth = sc.clientWidth
          from rfl] at hrec
    simp only [runSteps, List.map_append]
    rw [e1]
    exact ⟨hrec.1, by rw [h2, hrec.2]⟩

-- ============================================================================
-- C3: right-edge latch
-- ============================================================================

/-- C3: with the latch consistent with the previous call (`hasReachedEnd`
holds iff the previous remaining right buffer was within 480 px),
`onReachEnd` fires exactly on the transition of
`remaining = contentSize - paneSize - scrollLeft` from above 480 to
at-or-below 480, and the latch afterwards records whether the new
remaining is within the threshold.  The closed conjuncts replay the spec
scenario (`contentSize = 10000`, `paneSize = 1000`): calls at 8600, 8600,
8000, 8600 fire `onReachEnd` once, zero, zero, once. -/
theorem reachEnd_latch_transition (sw cw cur : Int) (s : ScrollTracking)
    (hinv : s.hasReachedEnd = true ↔ sw - cw - s.prevScrollLeft ≤ RIGHT_EDGE_THRESHOLD_PX) :
    (Emit.reachEnd ∈ (checkAndHandleRightEdge sw cw cur s.prevScrollLeft s).2
      ↔ (sw - cw - cur ≤ RIGHT_EDGE_THRESHOLD_PX
          ∧ RIGHT_EDGE_THRESHOLD_PX < sw - cw - s.prevScrollLeft))
    ∧ ((checkAndHandleRightEdge sw cw cur s.prevScrollLeft s).1.hasReachedEnd = true
        ↔ sw - cw - cur ≤ RIGHT_EDGE_THRESHOLD_PX)
    ∧ (nativeStepV (twelveMonthsPx 16) 10000 1000 8600 initialTracking).2.count
        Emit.reachEnd = 1
    ∧ (nativeStepV (twelveMonthsPx 16) 10000 1000 8600
        (nativeStepV (twelveMonthsPx 16) 10000 1000 8600 initialTracking).1).2.count
        Emit.reachEnd = 0
    ∧ (nativeStepV (twelveMonthsPx 16) 10000 1000 8000
        (nativeStepV (twelveMonthsPx 16) 10000 1000 8600
          (nativeStepV (twelveMonthsPx 16) 10000 1000 8600 initialTracking).1).1).2.count
        Emit.reachEnd = 0
    ∧ (nativeStepV (twelveMonthsPx 16) 10000 1000 8600
        (nativeStepV (twelveMonthsPx 16) 10000 1000 8000
          (nativeStepV (twelveMonthsPx 16) 10000 1000 8600
            (nativeStepV (twelveMonthsPx 16) 10000 1000 8600 initialTracking).1).1).1).2.count
        Emit.reachEnd = 1 := by
  refine ⟨?_, ?_, by decide, by decide, by decide, by decide⟩ <;>
    · rw [checkAndHandleRightEdge_cases]
      split_ifs <;> simp_all <;> omega

/-- Witness for C3 at the spec scenario's second firing: previous position
8000 (remaining 1000, latch clear), new position 8600 (remaining 400). -/
def latchProbe : ScrollTracking :=
  { prevScrollLeft := 8000
    hasReachedEnd := false
    scrollingLeft := false
    wasScrollingLeft := false
    timerPending := false
    lastScrollState := none
    scrollLeftPub := 0 }

theorem reachEnd_latch_transition_witness :
    (Emit.reachEnd ∈ (checkAndHandleRightEdge 10000 1000 8600 8000 latchProbe).2
      ↔ (10000 - 1000 - 8600 ≤ RIGHT_EDGE_THRESHOLD_PX
          ∧ RIGHT_EDGE_THRESHOLD_PX < 10000 - 1000 - 8000))
    ∧ ((checkAndHandleRightEdge 10000 1000 8600 8000 latchProbe).1.hasReachedEnd = true
        ↔ 10000 - 1000 - 8600 ≤ RIGHT_EDGE_THRESHOLD_PX)
    ∧ (nativeStepV (twelveMonthsPx 16) 10000 1000 8600 initialTracking).2.count
        Emit.reachEnd = 1
    ∧ (nativeStepV (twelveMonthsPx 16) 10000 1000 8600
        (nativeStepV (twelveMonthsPx 16) 10000 1000 8600 initialTracking).1).2.count
        Emit.reachEnd = 0
    ∧ (nativeStepV (twelveMonthsPx 16) 10000 1000 8000
        (nativeStepV (twelveMonthsPx 16) 10000 1000 8600
          (nativeStepV (twelveMonthsPx 16) 10000 1000 8600 initialTracking).1).1).2.count
        Emit.reachEnd = 0
    ∧ (nativeStepV (twelveMonthsPx 16) 10000 1000 8600
        (nativeStepV (twelveMonthsPx 16) 10000 1000 8000
          (nativeStepV (twelveMonthsPx 16) 10000 1000 8600
            (nativeStepV (twelveMonthsPx 16) 10000 1000 8600 initialTracking).1).1).1).2.count
        Emit.reachEnd = 1 :=
  reachEnd_latch_transition 10000 1000 8600 latchProbe (by decide)

-- ============================================================================
-- C4: the stop-debounce firing
-- ============================================================================

/-- Counterexample to C4 as stated: from a neutral state with previous
position 1100, a leftward call at 900 (threshold `5760`) starts an episode
and fires `onReachStart`; the debounce timer then fires, emitting the stop
pair — but it leaves the `scrollingLeft` gate set, so the next leftward
call at 800 (still under the threshold, with no intervening rightward
motion) does **not** fire `onReachStart` again, contradicting the claim. -/
theorem debounce_stop_keeps_reachStart_gate_cex :
    (debounceTimerFires Ev.native
        (nativeStepV (twelveMonthsPx 16) 20000 1000 900 episodeStart).1).2
      = [Emit.scrollingLeft 900 1100 0 Ev.native, Emit.stopScrollingLeft]
    ∧ (debounceTimerFires Ev.native
        (nativeStepV (twelveMonthsPx 16) 20000 1000 900 episodeStart).1).1.scrollingLeft
      = true
    ∧ (nativeStepV (twelveMonthsPx 16) 20000 1000 800
        (debounceTimerFires Ev.native
          (nativeStepV (twelveMonthsPx 16) 20000 1000 900 episodeStart).1).1).2.count
        Emit.reachStart = 0 := by
  decide

/-- C4 (amended): when the 150 ms debounce timer fires mid-episode
(`wasScrollingLeft` set with a recorded last scroll state), it emits a
final `onScrollLeft` with `scrollDelta = 0` carrying the last recorded
positions followed by `onStopScrollingLeft`, clears the
`wasScrollingLeft` flag and is itself spent — but it does **not** clear
the `scrollingLeft` gate, so a subsequent leftward call (no intervening
rightward motion) fires no further `onReachStart`; the gate resets only
on a rightward or stationary call. -/
theorem debounce_stop_amended (ev : Ev) (s : ScrollTracking) (c p tw sw cw v : Int)
    (hw : s.wasScrollingLeft = true) (hl : s.lastScrollState = some (c, p))
    (hg : s.scrollingLeft = true) (hv : v < s.prevScrollLeft) :
    (debounceTimerFires ev s).2
      = [Emit.scrollingLeft c p 0 ev, Emit.stopScrollingLeft]
    ∧ (debounceTimerFires ev s).1.wasScrollingLeft = false
    ∧ (debounceTimerFires ev s).1.timerPending = false
    ∧ (debounceTimerFires ev s).1.scrollingLeft = s.scrollingLeft
    ∧ (debounceTimerFires ev s).1.prevScrollLeft = s.prevScrollLeft
    ∧ (nativeStepV tw sw cw v (debounceTimerFires ev s).1).2.count Emit.reachStart = 0 := by
  have hfire : debounceTimerFires ev s
      = ({ s with timerPending := false, wasScrollingLeft := false },
         [Emit.scrollingLeft c p 0 ev, Emit.stopScrollingLeft]) := by
    simp [debounceTimerFires, hw, hl]
  refine ⟨by rw [hfire], by rw [hfire], by rw [hfire], by rw [hfire], by rw [hfire], ?_⟩
  exact (nativeStepV_left_nofire tw sw cw v _ (by rw [hfire]; exact hv)
    (by rw [hfire]; exact hg)).2.2

/-- The mid-episode state fed to the C4 witness. -/
def timerProbe : ScrollTracking :=
  { prevScrollLeft := 900
    hasReachedEnd := false
    scrollingLeft := true
    wasScrollingLeft := true
    timerPending := true
    lastScrollState := some (900, 1000)
    scrollLeftPub := 900 }

theorem debounce_stop_amended_witness :
    (debounceTimerFires Ev.native timerProbe).2
      = [Emit.scrollingLeft 900 1000 0 Ev.native, Emit.stopScrollingLeft]
    ∧ (debounceTimerFires Ev.native timerProbe).1.wasScrollingLeft = false
    ∧ (debounceTimerFires Ev.native timerProbe).1.timerPending = false
    ∧ (debounceTimerFires Ev.native timerProbe).1.scrollingLeft = timerProbe.scrollingLeft
    ∧ (debounceTimerFires Ev.native timerProbe).1.prevScrollLeft = timerProbe.prevScrollLeft
    ∧ (nativeStepV (twelveMonthsPx 16) 20000 1000 800
        (debounceTimerFires Ev.native timerProbe).1).2.count Emit.reachStart = 0 :=
  debounce_stop_amended Ev.native timerProbe 900 1000 (twelveMonthsPx 16) 20000 1000 800
    rfl rfl rfl (by decide)

-- ============================================================================
-- C5: vertical mirror acyclicity
-- ============================================================================

/-- C5: while the sync guard is set, a mirror call is a no-op (no write, no
state change); a harness that mirrors in both directions on every scroll
event sees exactly one mirrored write per user scroll — the reciprocal
B → A mirror inside the same synchronous turn is suppressed, the panes end
with B carrying A's offset and A untouched — and the guard, still set at
the end of the turn, is cleared only by the next animation-frame
callback. -/
theorem vertical_mirror_acyclic (g g' : VSync) (fromTop toTop aTop bTop : Int)
    (hset : g'.syncing = true) (hclear : g.syncing = false) :
    syncVerticalScroll g' fromTop toTop = (g', toTop, 0)
    ∧ (mirroredTurn g aTop bTop).2.2.2 = 1
    ∧ (mirroredTurn g aTop bTop).2.2.1 = aTop
    ∧ (mirroredTurn g aTop bTop).2.1 = aTop
    ∧ (mirroredTurn g aTop bTop).1.syncing = true
    ∧ (animationFrameFires (mirroredTurn g aTop bTop).1).syncing = false := by
  refine ⟨?_, ?_, ?_, ?_, ?_, ?_⟩ <;>
    simp [syncVerticalScroll, mirroredTurn, animationFrameFires, hset, hclear]

/-- Witness for C5: a clear guard for the user-scroll turn and a set guard
for the suppressed reciprocal call. -/
theorem vertical_mirror_acyclic_witness :
    syncVerticalScroll { syncing := true, rafScheduled := true } 42 7
      = ({ syncing := true, rafScheduled := true }, 7, 0)
    ∧ (mirroredTurn { syncing := false, rafScheduled := false } 10 20).2.2.2 = 1
    ∧ (mirroredTurn { syncing := false, rafScheduled := false } 10 20).2.2.1 = 10
    ∧ (mirroredTurn { syncing := false, rafScheduled := false } 10 20).2.1 = 10
    ∧ (mirroredTurn { syncing := false, rafScheduled := false } 10 20).1.syncing = true
    ∧ (animationFrameFires
        (mirroredTurn { syncing := false, rafScheduled := false } 10 20).1).syncing = false :=
  vertical_mirror_acyclic { syncing := false, rafScheduled := false }
    { syncing := true, rafScheduled := true } 42 7 10 20 rfl rfl

-- ============================================================================
-- C6: pointer-up / pointer-cancel mid-episode
-- ============================================================================

/-- The ambient drag session used in the C6 development. -/
def dragSess : DragSession :=
  { panning := true
    cursor := "grabbing"
    prevCursor := "default"
    moveListener := true
    upListener := true
    cancelListener := true }

/-- The tracking state at the start of the C6 counterexample drag. -/
def dragProbe : ScrollTracking :=
  { prevScrollLeft := 1000
    hasReachedEnd := false
    scrollingLeft := false
    wasScrollingLeft := false
    timerPending := false
    lastScrollState := none
    scrollLeftPub := 0 }

/-- Counterexample to C6 as stated: a leftward pointer-move (to 900 from
1000) arms the stop-debounce timer; pointer-up then runs the stop sequence
immediately, but the pending timer is **not** canceled — `timerPending` is
still set after termination, contradicting "cancels any pending debounce
timer". -/
theorem pointer_stop_timer_not_canceled_cex :
    (pointerStepV (twelveMonthsPx 16) 0 1000 900
        ({ scrollWidth := 20000, clientWidth := 1000, scrollLeft := 1000 },
          dragProbe)).1.2.timerPending = true
    ∧ (pointerTerminate TerminationKind.up dragSess
        (pointerStepV (twelveMonthsPx 16) 0 1000 900
          ({ scrollWidth := 20000, clientWidth := 1000, scrollLeft := 1000 },
            dragProbe)).1.2).1.2.timerPending = true := by
  decide

/-- C6 (amended): on pointer-up or pointer-cancel mid-episode
(`wasScrollingLeft` set with a recorded last scroll state), `handleEnd`
immediately emits the stop pair — an `onScrollLeft` with `scrollDelta = 0`
carrying the last recorded positions, then `onStopScrollingLeft` — clears
the was-scrolling flag, restores the prior cursor, clears the panning flag
and removes all three global listeners on either termination kind; it does
**not** cancel a pending debounce timer, but the cleared flag makes the
timer's later firing emit nothing, so the stop pair occurs exactly once. -/
theorem pointer_stop_amended (k : TerminationKind) (sess : DragSession)
    (s : ScrollTracking) (c p : Int) (ev : Ev)
    (hw : s.wasScrollingLeft = true) (hl : s.lastScrollState = some (c, p)) :
    (pointerTerminate k sess s).2
      = [Emit.scrollingLeft c p 0 Ev.synthetic, Emit.stopScrollingLeft]
    ∧ (pointerTerminate k sess s).1.2.wasScrollingLeft = false
    ∧ (pointerTerminate k sess s).1.2.timerPending = s.timerPending
    ∧ (debounceTimerFires ev (pointerTerminate k sess s).1.2).2 = []
    ∧ (pointerTerminate k sess s).1.1.panning = false
    ∧ (pointerTerminate k sess s).1.1.cursor = sess.prevCursor
    ∧ (pointerTerminate k sess s).1.1.moveListener = false
    ∧ (pointerTerminate k sess s).1.1.upListener = false
    ∧ (pointerTerminate k sess s).1.1.cancelListener = false := by
  have hend : pointerTerminate k sess s
      = (({ sess with
              panning := false
              cursor := sess.prevCursor
              moveListener := false
              upListener := false
              cancelListener := false },
          { s with wasScrollingLeft := false }),
         [Emit.scrollingLeft c p 0 Ev.synthetic, Emit.stopScrollingLeft]) := by
    simp [pointerTerminate, handleEnd, hw, hl]
  refine ⟨by rw [hend], by rw [hend], by rw [hend], ?_, by rw [hend], by rw [hend],
    by rw [hend], by rw [hend], by rw [hend]⟩
  rw [hend]
  simp [debounceTimerFires]

/-- Witness for C6: terminating mid-episode from `timerProbe` (timer armed,
last scroll state `(900, 1000)`). -/
theorem pointer_stop_amended_witness :
    (pointerTerminate TerminationKind.cancel dragSess timerProbe).2
      = [Emit.scrollingLeft 900 1000 0 Ev.synthetic, Emit.stopScrollingLeft]
    ∧ (pointerTerminate TerminationKind.cancel dragSess timerProbe).1.2.wasScrollingLeft = false
    ∧ (pointerTerminate TerminationKind.cancel dragSess timerProbe).1.2.timerPending
      = timerProbe.timerPending
    ∧ (debounceTimerFires Ev.native
        (pointerTerminate TerminationKind.cancel dragSess timerProbe).1.2).2 = []
    ∧ (pointerTerminate TerminationKind.cancel dragSess timerProbe).1.1.panning = false
    ∧ (pointerTerminate TerminationKind.cancel dragSess timerProbe).1.1.cursor
      = dragSess.prevCursor
    ∧ (pointerTerminate TerminationKind.cancel dragSess timerProbe).1.1.moveListener = false
    ∧ (pointerTerminate TerminationKind.cancel dragSess timerProbe).1.1.upListener = false
    ∧ (pointerTerminate TerminationKind.cancel dragSess timerProbe).1.1.cancelListener = false :=
  pointer_stop_amended TerminationKind.cancel dragSess timerProbe 900 1000 Ev.native rfl rfl

-- ============================================================================
-- C7: rightward or stationary motion resets tracking
-- ============================================================================

/-- C7: on a position update with the new scroll-left at or beyond the
previously recorded one, the left-scroll tracking resets to neutral — the
`scrollingLeft` and `wasScrollingLeft` flags clear and the pending stop
timer is cleared and nulled — and the call emits no `scrollingLeft`,
`reachStart` or `stoppedScrollingLeft` notification. -/
theorem rightward_motion_resets_tracking (tw sw cw v : Int) (ev : Ev) (s : ScrollTracking)
    (h : s.prevScrollLeft ≤ v) :
    checkAndHandleLeftScroll tw v s.prevScrollLeft ev s
      = ({ s with scrollingLeft := false, wasScrollingLeft := false, timerPending := false }, [])
    ∧ (nativeStepV tw sw cw v s).1.scrollingLeft = false
    ∧ (nativeStepV tw sw cw v s).1.wasScrollingLeft = false
    ∧ (nativeStepV tw sw cw v s).1.timerPending = false
    ∧ (nativeStepV tw sw cw v s).2.filter Emit.isLeftNotification = [] := by
  refine ⟨checkAndHandleLeftScroll_not_left tw v s.prevScrollLeft ev s h, ?_, ?_, ?_, ?_⟩ <;>
    · simp only [nativeStepV, handleRightScroll]
      rw [checkAndHandleLeftScroll_not_left tw v s.prevScrollLeft Ev.native
          { s with scrollLeftPub := v } h]
      first
        | rw [checkAndHandleRightEdge_fst_scrollingLeft]
        | rw [checkAndHandleRightEdge_fst_wasScrollingLeft]
        | rw [checkAndHandleRightEdge_fst_timerPending]
        | rw [List.filter_append, checkAndHandleRightEdge_filter_left]
          rfl

/-- Witness for C7: a stationary update (1000 after 1000 ≤ 1000 is false —
here previous 900, new 1000) on a state mid-episode with an armed timer. -/
theorem rightward_motion_resets_tracking_witness :
    checkAndHandleLeftScroll (twelveMonthsPx 16) 1000 timerProbe.prevScrollLeft
        Ev.native timerProbe
      = ({ timerProbe with
            scrollingLeft := false
            wasScrollingLeft := false
            timerPending := false }, [])
    ∧ (nativeStepV (twelveMonthsPx 16) 20000 1000 1000 timerProbe).1.scrollingLeft = false
    ∧ (nativeStepV (twelveMonthsPx 16) 20000 1000 1000 timerProbe).1.wasScrollingLeft = false
    ∧ (nativeStepV (twelveMonthsPx 16) 20000 1000 1000 timerProbe).1.timerPending = false
    ∧ (nativeStepV (twelveMonthsPx 16) 20000 1000 1000 timerProbe).2.filter
        Emit.isLeftNotification = [] :=
  rightward_motion_resets_tracking (twelveMonthsPx 16) 20000 1000 1000 Ev.native timerProbe
    (by decide)

-- ============================================================================
-- C8 / C9: task navigation
-- ============================================================================

/-- The task used in the concrete centering example: starts 10 days after
the viewport start. -/
def demoTask : TimelineTask :=
  { id := "t1", title := "Demo", start := some 10, endDate := some 12, baseIndex := 0,
    isSentinel := false }

/-- C8: for a found task with a positionable start date and a mounted
scroller, `scrollToTask` requests exactly
`max 0 (days between clamped start and viewport start) * pxPerDay - clientWidth / 2`,
with no clamping of the result by the engine; at the spec's concrete
example (start 10 days after viewport start, `pxPerDay = 16`, pane width
500) the requested scroll-left is exactly `-90`. -/
theorem scrollToTask_centering (tasks : List TimelineTask) (vstart vend pxPerDay : Int)
    (sc : Scroller) (taskId : String) (t : TimelineTask) (d : Int)
    (hfind : tasks.find? (fun x => x.id == taskId) = some t)
    (hstart : t.start = some d) :
    scrollToTask tasks vstart vend pxPerDay (some sc) taskId
      = some (max 0 (differenceInCalendarDays (clampDate d vstart vend) vstart) * pxPerDay
          - sc.clientWidth / 2)
    ∧ scrollToTask [demoTask] 0 100 16
        (some { scrollWidth := 10000, clientWidth := 500, scrollLeft := 0 }) "t1"
      = some (-90) := by
  constructor
  · simp [scrollToTask, hfind, hstart]
  · decide

/-- Witness for C8 at the spec's concrete example. -/
theorem scrollToTask_centering_witness :
    scrollToTask [demoTask] 0 100 16
        (some { scrollWidth := 10000, clientWidth := 500, scrollLeft := 0 }) "t1"
      = some (max 0 (differenceInCalendarDays (clampDate 10 0 100) 0) * 16 - 500 / 2) :=
  (scrollToTask_centering [demoTask] 0 100 16
    { scrollWidth := 10000, clientWidth := 500, scrollLeft := 0 } "t1" demoTask 10
    (by decide) rfl).1

/-- C9: `scrollToTask` is a silent no-op — no scroll request is produced —
whenever the id matches no task, the matched task has no positionable
start date (null or invalid), or no chart scroller is mounted. -/
theorem scrollToTask_silent_noop (tasks : List TimelineTask) (vstart vend pxPerDay : Int)
    (scroller : Option Scroller) (taskId : String)
    (h : tasks.find? (fun x => x.id == taskId) = none
       ∨ scroller = none
       ∨ ∃ t, tasks.find? (fun x => x.id == taskId) = some t ∧ t.start = none) :
    scrollToTask tasks vstart vend pxPerDay scroller taskId = none := by
  rcases h with h | h | ⟨t, hfind, hstart⟩
  · simp [scrollToTask, h]
  · subst h
    unfold scrollToTask
    cases tasks.find? (fun x => x.id == taskId) <;> rfl
  · rcases scroller with _ | sc
    · simp [scrollToTask, hfind]
    · simp [scrollToTask, hfind, hstart]

/-- Witness for C9: no scroller mounted. -/
theorem scrollToTask_silent_noop_witness :
    scrollToTask [demoTask] 0 100 16 none "t1" = none :=
  scrollToTask_silent_noop [demoTask] 0 100 16 none "t1" (Or.inr (Or.inl rfl))

-- ============================================================================
-- C10: raw pointer positions vs. clamped native positions
-- ============================================================================

theorem checkAndHandleLeftScroll_fst_scrollLeftPub (tw cur prev : Int) (ev : Ev)
    (s : ScrollTracking) :
    (checkAndHandleLeftScroll tw cur prev ev s).1.scrollLeftPub = s.scrollLeftPub := by
  rcases le_or_lt prev cur with h | h
  · rw [checkAndHandleLeftScroll_not_left tw cur prev ev s h]
  · by_cases hg : s.scrollingLeft = false ∧ cur < tw
    · rw [checkAndHandleLeftScroll_left_fire tw cur prev ev s h hg.1 hg.2]
    · rw [checkAndHandleLeftScroll_left_nofire tw cur prev ev s h hg]

/-- The native path publishes the scroller's own (DOM-clamped) `scrollLeft`
reading. -/
theorem handleRightScroll_publishes_reading (tw : Int) (sc : Scroller) (s : ScrollTracking) :
    (handleRightScroll tw sc s).1.scrollLeftPub = sc.scrollLeft := by
  simp only [handleRightScroll]
  rw [checkAndHandleRightEdge_fst_scrollLeftPub, checkAndHandleLeftScroll_fst_scrollLeftPub]

/-- The tracking state at the start of the C10 concrete drag: previous
recorded position 50. -/
def dragProbe50 : ScrollTracking :=
  { prevScrollLeft := 50
    hasReachedEnd := false
    scrollingLeft := false
    wasScrollingLeft := false
    timerPending := false
    lastScrollState := none
    scrollLeftPub := 0 }

/-- C10: each pointer-move publishes, and feeds into direction and edge
detection, the raw value `startScrollLeft - (clientX - startX)` with no
clamping: the concrete drag (start position 100, pointer moved 200 px
right) publishes `-100` — negative, below what the scroller itself holds
after its clamped write (0) — and the emitted `onScrollLeft` carries the
raw `-100`; the native path instead publishes the scroller's own
`scrollLeft` reading, which under the DOM invariant always lies within
`[0, maxScroll]`. -/
theorem pointer_raw_vs_native_clamped (tw startX startSL clientX : Int) (sc : Scroller)
    (s : ScrollTracking) (tw' : Int) (sc' : Scroller) (s' : ScrollTracking)
    (h0 : 0 ≤ sc'.scrollLeft) (h1 : sc'.scrollLeft ≤ sc'.maxScroll) :
    (handleMove tw startX startSL true clientX sc s).1.2.scrollLeftPub
      = startSL - (clientX - startX)
    ∧ (handleMove (twelveMonthsPx 16) 0 100 true 200
        { scrollWidth := 10000, clientWidth := 1000, scrollLeft := 100 }
        dragProbe50).1.2.scrollLeftPub = -100
    ∧ ((-100 : Int) < 0)
    ∧ (handleMove (twelveMonthsPx 16) 0 100 true 200
        { scrollWidth := 10000, clientWidth := 1000, scrollLeft := 100 }
        dragProbe50).1.1.scrollLeft = 0
    ∧ (handleMove (twelveMonthsPx 16) 0 100 true 200
        { scrollWidth := 10000, clientWidth := 1000, scrollLeft := 100 }
        dragProbe50).2
      = [Emit.scrollingLeft (-100) 50 150 Ev.synthetic, Emit.reachStart]
    ∧ (handleRightScroll tw' sc' s').1.scrollLeftPub = sc'.scrollLeft
    ∧ 0 ≤ (handleRightScroll tw' sc' s').1.scrollLeftPub
    ∧ (handleRightScroll tw' sc' s').1.scrollLeftPub ≤ sc'.maxScroll := by
  refine ⟨?_, by decide, by decide, by decide, by decide,
    handleRightScroll_publishes_reading tw' sc' s', ?_, ?_⟩
  · simp only [handleMove]
    rw [if_neg (by decide : ¬ ((true : Bool) = false))]
    rw [checkAndHandleRightEdge_fst_scrollLeftPub, checkAndHandleLeftScroll_fst_scrollLeftPub]
  · rw [handleRightScroll_publishes_reading tw' sc' s']
    exact h0
  · rw [handleRightScroll_publishes_reading tw' sc' s']
    exact h1

/-- Witness for C10: the general conjuncts instantiated at the concrete
drag and at a native scroller reading of 300 within `[0, 9000]`. -/
theorem pointer_raw_vs_native_clamped_witness :
    (handleMove (twelveMonthsPx 16) 0 100 true 200
        { scrollWidth := 10000, clientWidth := 1000, scrollLeft := 100 }
        dragProbe50).1.2.scrollLeftPub = 100 - (200 - 0)
    ∧ 0 ≤ (handleRightScroll (twelveMonthsPx 16)
        { scrollWidth := 10000, clientWidth := 1000, scrollLeft := 300 }
        dragProbe50).1.scrollLeftPub
    ∧ (handleRightScroll (twelveMonthsPx 16)
        { scrollWidth := 10000, clientWidth := 1000, scrollLeft := 300 }
        dragProbe50).1.scrollLeftPub
      ≤ ({ scrollWidth := 10000, clientWidth := 1000, scrollLeft := 300 } : Scroller).maxScroll :=
  ⟨(pointer_raw_vs_native_clamped (twelveMonthsPx 16) 0 100 200
      { scrollWidth := 10000, clientWidth := 1000, scrollLeft := 100 } dragProbe50
      (twelveMonthsPx 16) { scrollWidth := 10000, clientWidth := 1000, scrollLeft := 300 }
      dragProbe50 (by decide) (by decide)).1,
   (pointer_raw_vs_native_clamped (twelveMonthsPx 16) 0 100 200
      { scrollWidth := 10000, clientWidth := 1000, scrollLeft := 100 } dragProbe50
      (twelveMonthsPx 16) { scrollWidth := 10000, clientWidth := 1000, scrollLeft := 300 }
      dragProbe50 (by decide) (by decide)).2.2.2.2.2.2.1,
   (pointer_raw_vs_native_clamped (twelveMonthsPx 16) 0 100 200
      { scrollWidth := 10000, clientWidth := 1000, scrollLeft := 100 } dragProbe50
      (twelveMonthsPx 16) { scrollWidth := 10000, clientWidth := 1000, scrollLeft := 300 }
      dragProbe50 (by decide) (by decide)).2.2.2.2.2.2.2⟩

end Timeline
